import Mathlib

/-!
Verification development for the AI-Powered-Order-Management-System workflow
engine (src/graph.py, src/server.py).  The Python source is shallowly embedded:
dictionaries become association lists, the `GraphState` TypedDict becomes a
structure, step handlers become pure Lean functions (external I/O — the LLM,
the Neo4j retriever and the order tools — is passed in as oracle parameters),
and LangGraph's step loop (`compile().invoke` without interrupts, bounded by
its recursion limit) is embedded as a fuel-indexed transition function.
Python truthiness (empty string / empty dict / `None` are falsy) is modelled
explicitly where the source relies on it.
-/

namespace OMS

/-! ## Python dict model (for `update_state` and config lookups)

A Python dict is modelled as an association list with first-match lookup.
`update_state(state, **updates)` in graph.py is `{**state, **updates}`. -/

/-- First-match lookup, the semantics of `d.get(k)` / `d[k]`. -/
def dget {V : Type} : List (String × V) → String → Option V
  | [], _ => none
  | p :: rest, k => if p.1 == k then some p.2 else dget rest k

/-- `d.get(k, default)`. -/
def dgetD {V : Type} (d : List (String × V)) (k : String) (dflt : V) : V :=
  (dget d k).getD dflt

/-- `d[k] = v` on a dict: overwrite in place if the key exists, else append
(Python dicts keep the first insertion position of a key). -/
def upsert {V : Type} (d : List (String × V)) (k : String) (v : V) :
    List (String × V) :=
  if (d.find? (fun p => p.1 == k)).isSome then
    d.map (fun p => if p.1 == k then (k, v) else p)
  else d ++ [(k, v)]

/-- Append `v` to the list stored at `k` (the `connection_map.setdefault`
pattern of `build_from_copilot_json`). -/
def appendAt (d : List (String × List String)) (k : String) (v : String) :
    List (String × List String) :=
  if (d.find? (fun p => p.1 == k)).isSome then
    d.map (fun p => if p.1 == k then (p.1, p.2 ++ [v]) else p)
  else d ++ [(k, [v])]

/-- graph.py line 72, `update_state(state, **updates) = {**state, **updates}`:
the keys of `state` (values overridden by `updates` where present) followed by
the keys of `updates` that are new.  For unique-key dicts this is exactly the
Python dict merge. -/
def update_state {V : Type} (state updates : List (String × V)) :
    List (String × V) :=
  (state.map (fun p => (p.1, (dget updates p.1).getD p.2)))
    ++ updates.filter (fun p => (dget state p.1).isNone)

/-! ## JSON-ish values (tool results, items lists, …)

Tool results flow in from JSON/Neo4j.  `num s` carries the decimal literal as
a string; rendering a value into an f-string yields that literal (this is the
decimal model of Python's int/float repr — floating point itself is not
embedded). -/

inductive JVal where
  | str : String → JVal
  | num : String → JVal
  | arr : List JVal → JVal
  | obj : List (String × JVal) → JVal
  | none_ : JVal

/-- Python truthiness of a JSON value. -/
def jtruthy : JVal → Bool
  | .str s => s != ""
  | .num s => s != "0" && s != "0.0" && s != "-0" && s != "-0.0"
  | .arr l => !l.isEmpty
  | .obj l => !l.isEmpty
  | .none_ => false

mutual
/-- Rendering of a value, used both for f-strings and as the (indentation-free)
model of `json.dumps` (string escaping is not modelled). -/
def JVal.dump : JVal → String
  | .str s => "\"" ++ s ++ "\""
  | .num s => s
  | .arr l => "[" ++ JVal.dumpList l ++ "]"
  | .obj l => "\x7b" ++ JVal.dumpObj l ++ "\x7d"
  | .none_ => "null"

def JVal.dumpList : List JVal → String
  | [] => ""
  | [x] => JVal.dump x
  | x :: xs => JVal.dump x ++ ", " ++ JVal.dumpList xs

def JVal.dumpObj : List (String × JVal) → String
  | [] => ""
  | [(k, v)] => "\"" ++ k ++ "\": " ++ JVal.dump v
  | (k, v) :: xs => "\"" ++ k ++ "\": " ++ JVal.dump v ++ ", " ++ JVal.dumpObj xs
end

/-- f-string rendering of a value (`f"{v}"`): strings render bare, numbers as
their literal, containers via the dump model. -/
def jvalStr : JVal → String
  | .str s => s
  | .num s => s
  | v => v.dump

/-- A tool result dict. -/
abbrev ToolRes := List (String × JVal)

def jget (tr : ToolRes) (k : String) : Option JVal := dget tr k

def jgetD (tr : ToolRes) (k : String) (d : JVal) : JVal := dgetD tr k d

/-- `d.get(k)` combined with Python's `is not None` test: a missing key and an
explicit JSON null both count as absent. -/
def jgetNotNull (tr : ToolRes) (k : String) : Option JVal :=
  match jget tr k with
  | some .none_ => none
  | o => o

/-- `a or b` where `a` is `d.get(k)` (may be absent) and `b` a value. -/
def jOr (a : Option JVal) (b : JVal) : JVal :=
  match a with
  | some v => if jtruthy v then v else b
  | none => b

/-- `a or b` on two optional lookups. -/
def jOrO (a b : Option JVal) : Option JVal :=
  match a with
  | some v => if jtruthy v then some v else b
  | none => b

/-- Truthiness of an optional lookup (`if d.get(k):`). -/
def jtruthyO (o : Option JVal) : Bool :=
  match o with
  | some v => jtruthy v
  | none => false

/-! ## Python string helpers -/

/-- Truthiness of an optional string field (`if state.get("response"):`). -/
def truthyS (o : Option String) : Bool :=
  match o with
  | some s => s != ""
  | none => false

/-- `a or b` on optional strings with `""` falsy. -/
def pyOrOS (a b : Option String) : Option String :=
  match a with
  | some s => if s != "" then some s else b
  | none => b

/-- `f"{x}"` for an optional value: Python renders `None` as `"None"`. -/
def optStr (o : Option String) : String :=
  match o with
  | some s => s
  | none => "None"

/-- `str.lower()` (ASCII model, which is what the source's inputs use). -/
def pyLower (s : String) : String := String.mk (s.toList.map Char.toLower)

/-- `str.strip()`. -/
def pyTrim (s : String) : String :=
  String.mk (((s.toList.dropWhile Char.isWhitespace).reverse.dropWhile
    Char.isWhitespace).reverse)

/-- `str.startswith(pre)`. -/
def pyStartsWith (s pre : String) : Bool := pre.toList.isPrefixOf s.toList

/-! ## Decimal model of `float(x)` and `"{:,.2f}"` formatting

Exact for decimal literals with at most two fractional digits (every value the
repository's order tools produce); scientific notation and exotic float
syntax are not modelled. -/

def digitsVal (cs : List Char) : Nat :=
  cs.foldl (fun acc c => acc * 10 + (c.toNat - '0'.toNat)) 0

/-- Parse a decimal literal to a value in cents (rounding the third fractional
digit, matching `float` + `.2f` for ordinary inputs). -/
def parseCents (s : String) : Option Int :=
  let cs := (pyTrim s).toList
  let (neg, cs) :=
    match cs with
    | '-' :: rest => (true, rest)
    | '+' :: rest => (false, rest)
    | _ => (false, cs)
  let intPart := cs.takeWhile Char.isDigit
  let rest := cs.dropWhile Char.isDigit
  let fracOk : Option (List Char) :=
    match rest with
    | [] => if intPart.isEmpty then none else some []
    | '.' :: frac =>
        if frac.all Char.isDigit && !(intPart.isEmpty && frac.isEmpty) then
          some frac
        else none
    | _ => none
  match fracOk with
  | none => none
  | some frac =>
    let frac2 := frac.take 2 ++ List.replicate (2 - frac.length) '0'
    let roundUp : Bool := match frac.drop 2 with
      | c :: _ => decide ('5'.toNat ≤ c.toNat)
      | [] => false
    let cents : Nat := digitsVal intPart * 100 + digitsVal frac2
                        + (if roundUp then 1 else 0)
    some (if neg then -(cents : Int) else (cents : Int))

def groupDigitsAux : Nat → List Char → List Char
  | _, [] => []
  | 0, c :: rest => [c] ++ (if rest.isEmpty then [] else [',']) ++
      groupDigitsAux 2 rest
  | n + 1, c :: rest => [c] ++ groupDigitsAux n rest

/-- Insert thousands separators into a digit string. -/
def groupDigits (s : String) : String :=
  let cs := s.toList.reverse
  String.mk ((groupDigitsAux ((cs.length + 2) % 3) cs.reverse))

/-- `f"{x:,.2f}"` on a value given in cents. -/
def fmtFloat2 (cents : Int) : String :=
  let n := cents.natAbs
  let frac := n % 100
  (if cents < 0 then "-" else "") ++ groupDigits (toString (n / 100)) ++ "." ++
    (if frac < 10 then "0" else "") ++ toString frac

/-- `float(v)` (in cents) on a JSON value; `none` is the
`except (ValueError, TypeError)` outcome. -/
def jFloatCents : JVal → Option Int
  | .str s => parseCents s
  | .num s => parseCents s
  | _ => none

/-! ## The execution state (graph.py lines 22–39, `GraphState` TypedDict)

The TypedDict has a fixed key set, so it is embedded as a structure; a handler
body `update_state(state, f=v, …)` is exactly the record update
`\x7b state with f := v, … \x7d`.  `entities` holds the classifier's string
entities, `retrieved` the Neo4j doc dicts (title/body strings),
`agent_result` the dict `\x7b"needDocs": …, "docQuery": …\x7d` that
`agent_task` builds. -/

structure AgentResult where
  needDocs : Bool
  docQuery : String
deriving DecidableEq, Repr

structure GraphState where
  input : String
  user_input : String
  channel : String
  intent : Option String
  entities : List (String × String)
  query : Option String
  parsed_query : Option String
  isFastenerSearch : Bool
  tool_result : Option ToolRes
  agent_result : Option AgentResult
  retrieved : List (List (String × String))
  response : Option String
  needs_human_review : Bool
  human_input : Option String
  review_message : Option String

/-- graph.py lines 1285–1303, `initial_state`. -/
def initial_state (input_text : String) (channel : String) : GraphState :=
  { input := input_text
    user_input := input_text
    channel := if channel != "" then channel else "chat"
    intent := none
    entities := []
    query := none
    parsed_query := none
    isFastenerSearch := false
    tool_result := none
    agent_result := none
    retrieved := []
    response := none
    needs_human_review := false
    human_input := none
    review_message := none }

/-! ## `IntentClassifier.extract_order_id` (graph.py lines 90–97)

`re.search(r"order\s*#?\s*(\d+)", text, re.IGNORECASE)` followed by
`re.search(r"\b(\d\x7b4,\x7d)\b", text)`, implemented directly on the
character list. -/

def isWordChar (c : Char) : Bool := c.isAlphanum || c == '_'

/-- Try to match `order\s*#?\s*(\d+)` (case-insensitively) at the head. -/
def matchOrderNum (cs : List Char) : Option String :=
  if (cs.take 5).map Char.toLower == ['o', 'r', 'd', 'e', 'r'] then
    let rest := (cs.drop 5).dropWhile Char.isWhitespace
    let rest := match rest with
      | '#' :: r => r
      | r => r
    let rest := rest.dropWhile Char.isWhitespace
    let ds := rest.takeWhile Char.isDigit
    if ds.isEmpty then none else some (String.mk ds)
  else none

def searchOrderNum : List Char → Option String
  | [] => none
  | c :: rest =>
    match matchOrderNum (c :: rest) with
    | some s => some s
    | none => searchOrderNum rest

/-- Search for `\b(\d\x7b4,\x7d)\b`: a maximal digit run of length at least 4
whose neighbours are not word characters. -/
def searchLongNum (prev : Option Char) : List Char → Option String
  | [] => none
  | c :: rest =>
    if c.isDigit && (match prev with
        | some p => !isWordChar p
        | none => true) then
      let ds := c :: rest.takeWhile Char.isDigit
      let after := rest.dropWhile Char.isDigit
      if ds.length ≥ 4 && (match after with
          | [] => true
          | a :: _ => !isWordChar a) then
        some (String.mk ds)
      else searchLongNum (some c) rest
    else searchLongNum (some c) rest

def extract_order_id (text : String) : Option String :=
  match searchOrderNum text.toList with
  | some s => some s
  | none => searchLongNum none text.toList

/-! ## Step handlers (graph.py, class `WorkflowTasks`)

Handlers that call external services take the service as an oracle
parameter: `llm` models the model call under `LLMTaskHandler.invoke_with_fallback` (`none` = the call raised or is unavailable, which the source turns
into the fallback), `retrieve` models `neo4j_module.retrieve_docs`, and
`ToolOracles` models the three order tools (an `Except` error is a raised
exception). -/

abbrev Prompt := List (String × String)

abbrev LLMOracle := Prompt → Option String

structure ToolOracles where
  lookup_order_status : Option String → Except String (Option ToolRes)
  track_order : Option String → Except String (Option ToolRes)
  process_refund : Option String → Option String → Except String (Option ToolRes)

/-- graph.py lines 568–573, `user_task1`. -/
def user_task1 (state : GraphState) : GraphState :=
  let user_input := if state.user_input != "" then state.user_input else state.input
  { state with user_input := user_input }

/-- graph.py lines 575–603, `user_task2`. -/
def user_task2 (state : GraphState) : GraphState :=
  let human_input := state.human_input
  let needs_review := state.needs_human_review
  if needs_review && !truthyS human_input then
    let review_message :=
      match pyOrOS state.review_message (some "Please review and provide feedback") with
      | some m => m
      | none => "Please review and provide feedback"
    { state with review_message := some review_message, needs_human_review := true }
  else if truthyS human_input then
    let updated_input := state.user_input ++ " [Review feedback: " ++
      optStr human_input ++ "]"
    { state with user_input := updated_input, input := updated_input,
                 needs_human_review := false, review_message := none }
  else
    { state with needs_human_review := false }

/-- graph.py lines 544–556, `agent_task`. -/
def agent_task (state : GraphState) : GraphState :=
  let intent := state.intent.getD ""
  let need_docs := intent ∈ ["policy_question", "order_status", "track_order", "refund"]
  let doc_queries : List (String × String) :=
    [("refund", "refund return policy"),
     ("track_order", "shipping delivery policy"),
     ("order_status", "shipping return policy")]
  let doc_query := if intent != "" then dgetD doc_queries intent state.input
                   else state.input
  { state with agent_result := some { needDocs := need_docs, docQuery := doc_query } }

/-- graph.py lines 558–566, `retriever_task`. -/
def retriever_task (retrieve : String → Nat → List (List (String × String)))
    (state : GraphState) : GraphState :=
  match state.agent_result with
  | none => state
  | some agent_result =>
    if !agent_result.needDocs then state
    else
      let doc_query := agent_result.docQuery
      { state with retrieved := retrieve doc_query 3 }

/-- graph.py lines 503–542, `tool_task`.  The `try`/`except` around the tool
call catches a raised tool and records `tool_result = None` (the error itself
is discarded). -/
def tool_task (tools : ToolOracles) (state : GraphState) : GraphState :=
  let order_id := pyOrOS (dget state.entities "orderId") (extract_order_id state.input)
  match state.intent with
  | none => state
  | some intent =>
    if intent ∉ ["order_status", "order_price", "track_order", "refund"] then
      state
    else
      let result :=
        if intent == "refund" then
          tools.process_refund order_id (dget state.entities "reason")
        else if intent == "track_order" then
          tools.track_order order_id
        else
          tools.lookup_order_status order_id
      match result with
      | .ok tool_result => { state with tool_result := tool_result }
      | .error _ => { state with tool_result := none }

/-- The review prompt built in `human_review_task` (graph.py lines 614–617). -/
def review_prompt (state : GraphState) : String :=
  let order_id := dgetD state.entities "orderId" "unknown"
  let tool_result := match state.tool_result with
    | some tr => tr
    | none => []
  let refund_amount := jvalStr (jgetD tool_result "amount" (.str "unknown"))
  "⚠️ Approval Required: Refund request for order " ++ order_id ++
    " amounting to $" ++ refund_amount ++ ". Do you want to proceed? (yes/no)"

/-- graph.py lines 605–635, `human_review_task`. -/
def human_review_task (state : GraphState) : GraphState :=
  if state.intent != some "refund" then
    { state with needs_human_review := false }
  else
    let review_message := review_prompt state
    let human_input := pyTrim (pyLower (state.human_input.getD ""))
    if human_input ∈ ["yes", "y", "approve", "confirm"] then
      { state with needs_human_review := false, review_message := none }
    else if human_input != "" then
      { state with needs_human_review := false,
                   response := some "Refund request has been cancelled.",
                   review_message := none }
    else
      { state with needs_human_review := true,
                   review_message := some review_message,
                   response := some review_message }

/-! ## Response formatters (graph.py, class `ResponseFormatter`) -/

/-- graph.py lines 239–278, `format_order_status`. -/
def format_order_status (tool_result : ToolRes) : String :=
  let order_id := jOr (jget tool_result "id")
    (jOr (jget tool_result "orderId") (jgetD tool_result "order_id" (.str "unknown")))
  let status := jgetD tool_result "status" (.str "Unknown")
  let text := "Your order " ++ jvalStr order_id ++ " is currently **" ++
    jvalStr status ++ "**."
  let text := if jtruthyO (jget tool_result "carrier") then
      text ++ " It\u0027s being shipped via " ++
        jvalStr (jgetD tool_result "carrier" .none_) ++ "."
    else text
  let tracking := jOrO (jget tool_result "tracking") (jget tool_result "trackingNumber")
  let text := if jtruthyO tracking then
      text ++ " Tracking number: " ++ jvalStr ((tracking).getD .none_) ++ "."
    else text
  let expected := jOrO (jget tool_result "expectedDelivery")
    (jget tool_result "estimatedDelivery")
  let text := if jtruthyO expected then
      text ++ " Expected delivery date: " ++ jvalStr ((expected).getD .none_) ++ "."
    else text
  let order_date := jget tool_result "orderDate"
  let text := if jtruthyO order_date then
      text ++ " Order placed on: " ++ jvalStr ((order_date).getD .none_) ++ "."
    else text
  let text := match jgetNotNull tool_result "totalAmount" with
    | some total_amount =>
      match jFloatCents total_amount with
      | some amount => text ++ " Total amount: **$" ++ fmtFloat2 amount ++ "**."
      | none => text ++ " Total amount: **$" ++ jvalStr total_amount ++ "**."
    | none => text
  let text := match jgetD tool_result "items" (.arr []) with
    | .arr items =>
      if items.length > 0 then
        text ++ " Order contains " ++ toString items.length ++ " item(s)."
      else text
    | _ => text
  text

/-- One line of the tracking-history listing in `format_track_order`
(graph.py lines 308–315), for the event at 1-based index `i`. -/
def trackHistoryLine (i : Nat) (event : JVal) : String :=
  let ev := match event with
    | .obj fields => fields
    | _ => []
  let location := jgetD ev "location" (.str "Unknown")
  let event_status := jgetD ev "status" (.str "Unknown")
  let date := jgetD ev "date" (.str "")
  let date_str := if jtruthy date then ((jvalStr date).splitOn "T").headD ""
                  else ""
  let line := "\n" ++ toString i ++ ". " ++ jvalStr event_status ++ " - " ++
    jvalStr location
  if date_str != "" then line ++ " (" ++ date_str ++ ")" else line

def trackHistoryLines (i : Nat) : List JVal → String
  | [] => ""
  | e :: rest => trackHistoryLine i e ++ trackHistoryLines (i + 1) rest

/-- graph.py lines 280–317, `format_track_order`. -/
def format_track_order (tool_result : ToolRes) : String :=
  let order_id := jOr (jget tool_result "orderId")
    (jOr (jget tool_result "id") (jgetD tool_result "order_id" (.str "unknown")))
  let status := jgetD tool_result "status" (.str "in transit")
  let text := "Order " ++ jvalStr order_id ++ " is currently **" ++
    jvalStr status ++ "**."
  let tracking := jOrO (jget tool_result "trackingNumber") (jget tool_result "tracking")
  let text := if jtruthyO tracking then
      text ++ " Tracking number: " ++ jvalStr ((tracking).getD .none_) ++ "."
    else text
  let text := if jtruthyO (jget tool_result "carrier") then
      text ++ " Carrier: " ++ jvalStr (jgetD tool_result "carrier" .none_) ++ "."
    else text
  let text := if jtruthyO (jget tool_result "currentLocation") then
      text ++ " Current location: " ++
        jvalStr (jgetD tool_result "currentLocation" .none_) ++ "."
    else text
  let estimated := jOrO (jget tool_result "estimatedDelivery")
    (jget tool_result "expectedDelivery")
  let text := if jtruthyO estimated then
      text ++ " Estimated delivery: " ++ jvalStr ((estimated).getD .none_) ++ "."
    else text
  let text := match jgetD tool_result "trackingHistory" (.arr []) with
    | .arr tracking_history =>
      if tracking_history.length > 0 then
        text ++ "\n\nTracking history:" ++ trackHistoryLines 1 (tracking_history.take 5)
      else text
    | _ => text
  text

/-- graph.py lines 319–336, `format_refund`. -/
def format_refund (tool_result : ToolRes) : String :=
  let order_id := jOr (jget tool_result "orderId")
    (jOr (jget tool_result "id") (jgetD tool_result "order_id" (.str "unknown")))
  let refund_id := jOr (jget tool_result "refundId") (jgetD tool_result "refund_id" (.str ""))
  let status := jgetD tool_result "status" (.str "processing")
  let text := "Your refund request for order " ++ jvalStr order_id ++
    " has been received and is " ++ pyLower (jvalStr status) ++ "."
  let text := if jtruthy refund_id then
      text ++ " Refund ID: " ++ jvalStr refund_id ++ "."
    else text
  let text := if jtruthyO (jget tool_result "amount") then
      text ++ " Amount: $" ++ jvalStr (jgetD tool_result "amount" .none_) ++ "."
    else text
  let text := if jtruthyO (jget tool_result "estimatedProcessingTime") then
      text ++ " Estimated processing time: " ++
        jvalStr (jgetD tool_result "estimatedProcessingTime" .none_) ++ "."
    else text
  let text := if jtruthyO (jget tool_result "message") then
      text ++ " " ++ jvalStr (jgetD tool_result "message" .none_)
    else text
  text

/-- One item line in `format_order_price` (graph.py lines 357–365).
`float(price) * float(qty)` is modelled on cents (exact for at most two
fractional digits). -/
def orderPriceItemLine (item : JVal) : String :=
  let it := match item with
    | .obj fields => fields
    | _ => []
  let item_name := jgetD it "name" (.str "Unknown item")
  let item_qty := jgetD it "quantity" (.num "1")
  let item_price := jgetD it "price" (.num "0")
  match jFloatCents item_price, jFloatCents item_qty with
  | some pc, some qc =>
    let item_total := pc * qc / 100
    "\n- " ++ jvalStr item_name ++ " (Qty: " ++ jvalStr item_qty ++ ") × $" ++
      fmtFloat2 pc ++ " = $" ++ fmtFloat2 item_total
  | _, _ =>
    "\n- " ++ jvalStr item_name ++ " (Qty: " ++ jvalStr item_qty ++ ") × $" ++
      jvalStr item_price

/-- graph.py lines 338–367, `format_order_price`. -/
def format_order_price (tool_result : ToolRes) : String :=
  let order_id := jOr (jget tool_result "id")
    (jOr (jget tool_result "orderId") (jgetD tool_result "order_id" (.str "unknown")))
  let text := match jgetNotNull tool_result "totalAmount" with
    | some total_amount =>
      match jFloatCents total_amount with
      | some amount =>
        "The total price for order " ++ jvalStr order_id ++ " is **$" ++
          fmtFloat2 amount ++ "**."
      | none =>
        "The total price for order " ++ jvalStr order_id ++ " is **$" ++
          jvalStr total_amount ++ "**."
    | none => "I couldn\u0027t find the price for order " ++ jvalStr order_id ++ "."
  match jgetD tool_result "items" (.arr []) with
  | .arr items =>
    if items.length > 0 then
      text ++ "\n\nOrder contains " ++ toString items.length ++ " item(s):" ++
        String.join (items.map orderPriceItemLine)
    else text
  | _ => text

/-- graph.py lines 369–385, `format_tool_response`. -/
def format_tool_response (intent : String) (tool_result : ToolRes) : String :=
  if intent == "order_status" then format_order_status tool_result
  else if intent == "order_price" then format_order_price tool_result
  else if intent == "track_order" then format_track_order tool_result
  else if intent == "refund" then format_refund tool_result
  else "I found: " ++ JVal.dump (.obj tool_result)

/-- One `DOCS` line in `build_context` (graph.py lines 396–399):
`f"- \x7btitle\x7d: \x7bbody[:180]\x7d…"`. -/
def contextDocLine (d : List (String × String)) : String :=
  "- " ++ dgetD d "title" "Unknown" ++ ": " ++ (dgetD d "body" "").take 180 ++ "…"

/-- graph.py lines 387–403, `build_context`. -/
def build_context (tool_result : Option ToolRes)
    (retrieved : List (List (String × String))) : String :=
  let parts : List String := []
  let parts := match tool_result with
    | some tr => if !tr.isEmpty then parts ++ ["TOOL_RESULT: " ++ JVal.dump (.obj tr)]
                 else parts
    | none => parts
  let parts :=
    if !retrieved.isEmpty then
      let doc_text := String.intercalate "\n" (retrieved.map contextDocLine)
      if doc_text != "" then parts ++ ["DOCS: " ++ doc_text] else parts
    else parts
  if !parts.isEmpty then String.intercalate "\n" parts
  else "No additional context available."

/-- graph.py lines 203–211, `PromptBuilder.build_chat_render_prompt`. -/
def build_chat_render_prompt (input_text : String) (context : String) : Prompt :=
  [("system", "You are a helpful assistant. Combine tool results and the brief doc snippets to answer clearly in 3-5 sentences."),
   ("user", "User asked: " ++ input_text ++ "\n\n" ++ context)]

/-- The retrieved-docs half of `_generate_fallback_response`
(graph.py lines 831–841).  `title` is
`first_doc.get("title", "documentation") or "documentation"`. -/
def fallbackFromDocs (state : GraphState) : String :=
  if !state.retrieved.isEmpty then
    let first_doc := state.retrieved.headD []
    let t := dgetD first_doc "title" "documentation"
    let title := if t != "" then t else "documentation"
    let body := dgetD first_doc "body" ""
    if body != "" then
      let preview := if (body.splitOn ". ").length > 1 then
          (body.splitOn ". ").headD "" ++ "."
        else body.take 200
      "According to our " ++ pyLower title ++ ", " ++ preview
    else "I found information in our " ++ pyLower title ++ "."
  else
    "I\u0027m here to help! Could you please rephrase your question or provide more details?"

/-- graph.py lines 824–841, `_generate_fallback_response`. -/
def generate_fallback_response (state : GraphState) : String :=
  match state.tool_result with
  | some tool_result =>
    if !tool_result.isEmpty then
      format_tool_response (state.intent.getD "") tool_result
    else fallbackFromDocs state
  | none => fallbackFromDocs state

/-! ## `render_chat` (graph.py lines 637–747)

The Python function is a chain of early returns; each suffix of the chain is
its own definition.  `truthyDict` is `tool_result and isinstance(tool_result,
dict)` (an empty dict is falsy). -/

def truthyDict (o : Option ToolRes) : Bool :=
  match o with
  | some tr => !tr.isEmpty
  | none => false

/-- Truthiness of `json.loads(parsed_query)` for the query strings
`fastener_search` produces (`json.dumps` output or `"\x7b\x7d"`); a parse
failure falls into the source's `except: pass`, i.e. is also not truthy. -/
def jsonTruthy (s : String) : Bool :=
  let t := pyTrim s
  !(t == "\x7b\x7d" || t == "[]" || t == "null" || t == "\"\"" || t == "0" || t == "")

/-- graph.py lines 715–747: the LLM render attempt with fallback and the
final safety chain. -/
def render_chat_llm_phase (llm : LLMOracle) (state : GraphState) : GraphState :=
  let context := build_context state.tool_result state.retrieved
  let prompt := build_chat_render_prompt state.input context
  let text := match llm prompt with
    | some content => if pyTrim content == "" then generate_fallback_response state
                      else content
    | none => generate_fallback_response state
  let text := if pyTrim text == "" then generate_fallback_response state else text
  let text :=
    if pyTrim text == "" then
      if truthyDict state.tool_result then
        "Your request has been processed. " ++
          JVal.dump (.obj (state.tool_result.getD []))
      else if state.tool_result.isNone &&
          (state.intent == some "order_status" || state.intent == some "track_order") then
        let order_id := dgetD state.entities "orderId" "the order"
        "I couldn\u0027t find " ++ order_id ++
          " in our system. Please verify the order ID or ensure the data has been loaded into Neo4j using data.cypher."
      else if truthyS state.intent then
        "I\u0027ve processed your " ++ state.intent.getD "" ++
          " request. How can I help you further?"
      else "I\u0027ve processed your request. How can I help you further?"
    else text
  { state with response := some text }

/-- graph.py lines 707–713: the order-price safety branch before the LLM. -/
def render_chat_b4 (llm : LLMOracle) (state : GraphState) : GraphState :=
  if state.intent == some "order_price" && truthyDict state.tool_result then
    { state with response := some (generate_fallback_response state) }
  else render_chat_llm_phase llm state

/-- graph.py lines 689–705: the order-not-found and fastener-query branches. -/
def render_chat_postTool (llm : LLMOracle) (state : GraphState) : GraphState :=
  if state.tool_result.isNone &&
      (state.intent == some "order_status" || state.intent == some "order_price" ||
       state.intent == some "track_order") then
    let order_id := pyOrOS (dget state.entities "orderId")
      (extract_order_id state.input)
    { state with response := some ("I couldn\u0027t find order " ++ optStr order_id ++
        " in our system. Please verify the order ID or ensure the order data has been loaded into Neo4j using the \u0027Load Order Data\u0027 button in the System Management panel.") }
  else
    match state.parsed_query with
    | some parsed_query =>
      if parsed_query != "" && parsed_query != "\x7b\x7d" && jsonTruthy parsed_query then
        let response := "I found fastener search results based on your query. Here are the matching items."
        { state with response := some response }
      else render_chat_b4 llm state
    | none => render_chat_b4 llm state

/-- graph.py lines 681–687: the general formatter applied to a present
tool result. -/
def render_chat_generalFmt (llm : LLMOracle) (state : GraphState)
    (tool_result : ToolRes) (intent_type : String) : GraphState :=
  let formatted := format_tool_response intent_type tool_result
  if pyTrim formatted != "" then { state with response := some formatted }
  else render_chat_postTool llm state

/-- graph.py lines 637–747, `render_chat`. -/
def render_chat (llm : LLMOracle) (state : GraphState) : GraphState :=
  if truthyS state.response && state.needs_human_review then state
  else if truthyDict state.tool_result then
    let tool_result := state.tool_result.getD []
    let intent_type := state.intent.getD ""
    if intent_type == "order_price" then
      let formatted := format_order_price tool_result
      if pyTrim formatted != "" then { state with response := some formatted }
      else
        match jgetNotNull tool_result "totalAmount" with
        | some total_amount =>
          let order_id := jOr (jget tool_result "id")
            (jgetD tool_result "orderId" (.str "unknown"))
          let fallback_text := match jFloatCents total_amount with
            | some amount => "The total price for order " ++ jvalStr order_id ++
                " is **$" ++ fmtFloat2 amount ++ "**."
            | none => "The total price for order " ++ jvalStr order_id ++
                " is **$" ++ jvalStr total_amount ++ "**."
          { state with response := some fallback_text }
        | none => render_chat_generalFmt llm state tool_result intent_type
    else render_chat_generalFmt llm state tool_result intent_type
  else render_chat_postTool llm state

/-! ## Router functions (graph.py, class `WorkflowRouters`) -/

/-- graph.py lines 851–854, `workflow_router`. -/
def workflow_router (state : GraphState) : String :=
  if state.isFastenerSearch then "FastenerIntentClassifier" else "ToolTask"

/-- graph.py lines 856–859, `needs_review_router`. -/
def needs_review_router (state : GraphState) : String :=
  if state.intent.getD "" == "refund" then "HumanReviewTask" else "RetrieverTask"

/-- graph.py lines 861–864, `should_render_router`. -/
def should_render_router (state : GraphState) : String :=
  if state.channel == "email" then "RenderTaskEmail" else "RenderTaskChat"

/-- graph.py lines 866–869, `fastener_search_router`. -/
def fastener_search_router (state : GraphState) : String :=
  if state.isFastenerSearch then "FastenerSearch" else "ErrorHandler"

/-- graph.py lines 871–877, `llm_task_router`. -/
def llm_task_router (state : GraphState) : String :=
  if state.needs_human_review then "UserTask2" else "ToolTask"

/-- graph.py lines 879–884, `router_task1_router`. -/
def router_task1_router (state : GraphState) : String :=
  let intent := state.intent.getD ""
  if intent ∈ ["order_status", "track_order", "policy_question", "chit_chat"] then
    "RenderTaskChat"
  else "AgentTask"

/-! ## Execution semantics of a compiled graph

graph.py compiles its `StateGraph` with `graph.compile(checkpointer=…)` — no
`interrupt_before`/`interrupt_after` — and runs it with `invoke`/`ainvoke`.
LangGraph then executes one node at a time from the entry point, following the
node's conditional branch (looking the routing key up in the route table —
a missing key raises) or its direct edge, until the terminal marker, bounded
by the recursion limit (a bound on the total number of steps per turn,
25 by default).  Nothing in this loop inspects `needs_human_review`.  That
loop is embedded below with the recursion limit as fuel; `trace` records the
executed node names. -/

inductive Target where
  | node : String → Target
  | terminal : Target
deriving DecidableEq, Repr

inductive RunError where
  | recursionLimit : RunError
  | unknownNode : String → RunError
  | routingKeyError : String → String → RunError
  | deadEnd : String → RunError
deriving DecidableEq, Repr

structure CGraph where
  entry : String
  handlers : List (String × (GraphState → GraphState))
  direct : List (String × Target)
  cond : List (String × ((GraphState → String) × List (String × Target)))

/-- One-node-at-a-time execution with the recursion limit as fuel. -/
def runFrom (g : CGraph) : Nat → String → GraphState → List String →
    Except RunError (GraphState × List String)
  | 0, _, _, _ => .error .recursionLimit
  | fuel + 1, cur, st, trace =>
    match dget g.handlers cur with
    | none => .error (.unknownNode cur)
    | some handler =>
      let st1 := handler st
      let trace1 := trace ++ [cur]
      match dget g.cond cur with
      | some (router, routes) =>
        match dget routes (router st1) with
        | some (.node next) => runFrom g fuel next st1 trace1
        | some .terminal => .ok (st1, trace1)
        | none => .error (.routingKeyError cur (router st1))
      | none =>
        match dget g.direct cur with
        | some (.node next) => runFrom g fuel next st1 trace1
        | some .terminal => .ok (st1, trace1)
        | none => .error (.deadEnd cur)

/-- The list of executed step names of a run (`none` if the run raised). -/
def runTrace (g : CGraph) (fuel : Nat) (st : GraphState) :
    Option (List String) :=
  (runFrom g fuel g.entry st []).toOption.map (fun r => r.2)

/-- The error-state dict built by the `except Exception` handler of
`orchestrate_workflow` (graph.py lines 1448–1461): it has exactly the
keys input, user_input, channel, response, intent=None, entities=\x7b\x7d and
error. -/
structure ErrorState where
  input : String
  user_input : String
  channel : String
  response : String
  error : String
deriving DecidableEq, Repr

inductive TurnResult where
  | completed : GraphState → TurnResult
  | errorResult : ErrorState → TurnResult

/-- Short rendering of a run error (the source interpolates `str(e)`; the
exact wording of LangGraph's messages is not modelled). -/
def describeErr : RunError → String
  | .recursionLimit => "Recursion limit reached"
  | .unknownNode n => "Unknown node " ++ n
  | .routingKeyError _ k => "KeyError: " ++ k
  | .deadEnd n => "Dead end at " ++ n

/-- graph.py lines 1348–1461, `orchestrate_workflow`, with the workflow file
already loaded and compiled into `g` (the `FileNotFoundError` fallback path
concerns the file system and is omitted): build the initial state, merge
`human_input` if truthy, execute, and convert any raised exception into the
error-state dict instead of propagating it. -/
def orchestrate_initial (input_text : String) (channel : String)
    (human_input : Option String) : GraphState :=
  let state := initial_state input_text channel
  match human_input with
  | some h => if h != "" then { state with human_input := some h } else state
  | none => state

def orchestrate_workflow (g : CGraph) (recursion_limit : Nat)
    (input_text : String) (channel : String) (human_input : Option String) :
    TurnResult :=
  let state := orchestrate_initial input_text channel human_input
  match runFrom g recursion_limit g.entry state [] with
  | .ok (result, _) => .completed result
  | .error e => .errorResult
      { input := input_text
        user_input := input_text
        channel := channel
        response := "Error executing workflow: " ++ describeErr e
        error := describeErr e }

/-! ## Graph building (graph.py, class `GraphBuilder`)

The two declarative input shapes are embedded as one record of optional
fields (`None` = the JSON key is absent; list-valued keys that the source
reads with `.get(k, [])` are plain lists).  The builders produce the shape of
the graph (node names, entry, edges, conditional edges); raised
a raised `ValueError` becomes an `Except.error`.  The validation inside
`graph.compile` belongs to LangGraph and is not part of the builder. -/

structure EdgeCfg where
  fromStep : String
  toStep : String
deriving DecidableEq, Repr

structure CondCfg where
  fromStep : String
  router_function : Option String
  routes : List (String × String)
deriving DecidableEq, Repr

structure Activity where
  id : String
  name : String
  type : String
deriving DecidableEq, Repr

structure Connection where
  source : String
  target : String
deriving DecidableEq, Repr

structure RawConfig where
  entry_point : Option String
  nodes : Option (List String)
  edges : List EdgeCfg
  conditional_edges : List CondCfg
  WorkflowActivities : Option (List Activity)
  WorkflowConnections : List Connection
  StartActivityId : Option String
deriving DecidableEq, Repr

structure BuiltGraph where
  nodes : List String
  entry : Option String
  edges : List (String × Target)
  condEdges : List (String × String × List (String × String))
deriving DecidableEq, Repr

/-- graph.py line 897. -/
def ROUTER_NODES : List String := ["WorkflowRouter", "FastenerSearchRouter", "RouterTask1"]

/-- The key set of `GraphBuilder._build_node_mapping` (graph.py lines
904–930).  The three `ROUTER_NODES` keys map to `None`; every other key maps
to a task or router function. -/
def node_mapping_keys : List String :=
  ["UserTask1", "UserTask2", "LLMTask", "ToolTask", "AgentTask",
   "RetrieverTask", "HumanReviewTask", "RenderTaskChat", "RenderTaskEmail",
   "FastenerIntentClassifier", "FastenerSearch", "ErrorHandler",
   "DisplayItemsTable", "WorkflowRouter", "FastenerSearchRouter",
   "RouterTask1", "router", "should_render_router", "needs_review_router",
   "workflow_router", "fastener_search_router", "llm_task_router",
   "router_task1_router"]

/-- `self.node_mapping[name] is None` (graph.py lines 920–922). -/
def node_mapping_isNone (name : String) : Bool := name ∈ ROUTER_NODES

/-- "END" in an edge's target becomes the terminal marker. -/
def tgtOf (s : String) : Target :=
  if s == "END" then .terminal else .node s

/-- graph.py lines 952–963, `_build_router_mapping`. -/
def build_router_mapping (cfg : RawConfig) : List (String × String) :=
  cfg.edges.foldl (fun m e =>
    if e.toStep ∈ ROUTER_NODES then upsert m e.toStep e.fromStep else m) []

/-- graph.py lines 965–977, `_add_nodes`, plus LangGraph's `add_node`
duplicate check (a `ValueError` naming the already-present node, raised when
the same name is added twice).  `acc` is the list of nodes added so far. -/
def add_nodesAux (acc : List String) : List String → Except String (List String)
  | [] => .ok acc
  | name :: rest =>
    if name ∈ ROUTER_NODES then add_nodesAux acc rest
    else if name ∉ node_mapping_keys then
      .error ("Node function \u0027" ++ name ++ "\u0027 not found")
    else if node_mapping_isNone name then
      .error ("Node function \u0027" ++ name ++ "\u0027 is None")
    else if name ∈ acc then
      .error ("Node \u0027" ++ name ++ "\u0027 already present.")
    else add_nodesAux (acc ++ [name]) rest

def add_nodes (cfg : RawConfig) : Except String (List String) :=
  add_nodesAux [] (cfg.nodes.getD [])

/-- graph.py lines 979–984, `_set_entry_point` (`if not entry_point: raise`). -/
def set_entry_point (cfg : RawConfig) : Except String String :=
  match cfg.entry_point with
  | some e => if e != "" then .ok e else .error "Workflow JSON missing \u0027entry_point\u0027"
  | none => .error "Workflow JSON missing \u0027entry_point\u0027"

/-- graph.py lines 986–1002, `_add_edges`: skip edges touching router
pseudo-nodes and edges out of conditional sources; map `"END"` to the
terminal marker. -/
def add_edgesAux (conditional_nodes : List String) :
    List EdgeCfg → List (String × Target)
  | [] => []
  | e :: rest =>
    if e.fromStep ∈ ROUTER_NODES || e.toStep ∈ ROUTER_NODES then
      add_edgesAux conditional_nodes rest
    else if e.fromStep ∈ conditional_nodes then
      add_edgesAux conditional_nodes rest
    else (e.fromStep, tgtOf e.toStep) :: add_edgesAux conditional_nodes rest

def add_edges (cfg : RawConfig) : List (String × Target) :=
  add_edgesAux (cfg.conditional_edges.map (fun ce => ce.fromStep)) cfg.edges

/-- graph.py lines 1004–1023, `_add_conditional_edges`: resolve router
pseudo-node indirection, fail on an unresolved or `None` routing function. -/
def add_conditional_edgesAux (router_mapping : List (String × String)) :
    List CondCfg → Except String (List (String × String × List (String × String)))
  | [] => .ok []
  | ce :: rest =>
    let from_node := (dget router_mapping ce.fromStep).getD ce.fromStep
    let rname := ce.router_function
    let known := match rname with
      | some r => r ∈ node_mapping_keys
      | none => false
    if !known then
      .error ("Router function \u0027" ++ optStr rname ++ "\u0027 not found")
    else if node_mapping_isNone (rname.getD "") then
      .error ("Router function \u0027" ++ optStr rname ++ "\u0027 is None")
    else
      match add_conditional_edgesAux router_mapping rest with
      | .ok tail => .ok ((from_node, rname.getD "", ce.routes) :: tail)
      | .error msg => .error msg

/-- graph.py lines 932–950, `build_from_json`. -/
def build_from_json (cfg : RawConfig) : Except String BuiltGraph := do
  let router_mapping := build_router_mapping cfg
  let nodes ← add_nodes cfg
  let entry ← set_entry_point cfg
  let edges := add_edges cfg
  let condEdges ← add_conditional_edgesAux router_mapping cfg.conditional_edges
  return { nodes := nodes, entry := some entry, edges := edges, condEdges := condEdges }

/-! ### The activity/connection ("Copilot") shape
(graph.py lines 1025–1213, `build_from_copilot_json`) -/

/-- graph.py lines 1215–1246, `_normalize_node_name`
(the trailing-digit strip done with `re.sub` plus the special-case chain). -/
def normalize_node_name (activity_name : String) : String :=
  let normalized := String.mk ((activity_name.toList.reverse.dropWhile Char.isDigit).reverse)
  if normalized == "LLMTask" then "LLMTask"
  else if normalized == "ToolTask" then "ToolTask"
  else if normalized == "AgentTask" then "AgentTask"
  else if normalized == "RetrievalTask" || normalized == "RetrieverTask" then "RetrieverTask"
  else if normalized == "RenderTask" then "RenderTaskChat"
  else if normalized == "RouterTask" then "RouterTask1"
  else if pyStartsWith activity_name "UserTask" then activity_name
  else if normalized ∈ node_mapping_keys then normalized
  else activity_name

/-- graph.py lines 1059–1068: `id_to_name`, built over non-Start activities. -/
def copilotIdToName (acts : List Activity) : List (String × String) :=
  acts.foldl (fun m a => if a.type == "Start" then m else upsert m a.id a.name) []

/-- graph.py lines 1059–1090: the keys of `name_to_node_func` in insertion
order.  Activities whose normalized name has no registered handler are
skipped with a console warning; router pseudo-activities (`None` handlers)
are skipped; a repeated name stays a single dict key. -/
def copilotNodeNamesAux (acc : List String) : List Activity → List String
  | [] => acc
  | a :: rest =>
    if a.type == "Start" then copilotNodeNamesAux acc rest
    else
      let node_name := normalize_node_name a.name
      if node_name ∉ node_mapping_keys then copilotNodeNamesAux acc rest
      else if node_mapping_isNone node_name then copilotNodeNamesAux acc rest
      else if a.name ∈ acc then copilotNodeNamesAux acc rest
      else copilotNodeNamesAux (acc ++ [a.name]) rest

def copilotNodeNames (acts : List Activity) : List String :=
  copilotNodeNamesAux [] acts

/-- graph.py lines 1092–1110: the entry point — the target of the first
connection out of `StartActivityId`, else the first non-Start activity; a
falsy name in either place falls through (and `none` here is the
`raise ValueError("Could not determine entry point…")`). -/
def copilotEntryPoint (cfg : RawConfig) (idToName : List (String × String)) :
    Option String :=
  let start := cfg.StartActivityId.getD ""
  let e1 : Option String :=
    if start != "" then
      match cfg.WorkflowConnections.find? (fun c => c.source == start) with
      | some c => dget idToName c.target
      | none => none
    else none
  let e1 := match e1 with
    | some n => if n == "" then none else some n
    | none => none
  match e1 with
  | some n => some n
  | none =>
    match (cfg.WorkflowActivities.getD []).find? (fun a => a.type != "Start") with
    | some a => if a.name == "" then none else some a.name
    | none => none

/-- graph.py lines 1114–1149: one pass over the connections building
`connection_map`, `router_connections` and `router_sources`. -/
def copilotConnFold (cfg : RawConfig) (idToName : List (String × String)) :
    List (String × List String) × List (String × List String) × List (String × String) :=
  let start := cfg.StartActivityId.getD ""
  cfg.WorkflowConnections.foldl (fun acc c =>
    let (cmap, rconn, rsrc) := acc
    if c.source == start then acc
    else
      match dget idToName c.source, dget idToName c.target with
      | some source_name, some target_name =>
        if source_name == "" || target_name == "" then acc
        else
          let normalized_source := normalize_node_name source_name
          let normalized_target := normalize_node_name target_name
          if normalized_source ∈ ROUTER_NODES then
            (cmap, appendAt rconn source_name target_name, rsrc)
          else if normalized_target ∈ ROUTER_NODES then
            (cmap, rconn, upsert rsrc target_name source_name)
          else
            (appendAt cmap source_name target_name, rconn, rsrc)
      | _, _ => acc) ([], [], [])

/-- Python's `pat in s` substring test. -/
def containsSub (s pat : String) : Bool :=
  decide (List.IsInfix pat.toList s.toList)

/-- The `routes` dict built for a `RouterTask1` pseudo-node
(graph.py lines 1164–1173): substring-based remapping of the targets onto the
router function's return values. -/
def routerTask1Routes (target_names : List String) : List (String × String) :=
  target_names.foldl (fun routes t =>
    if containsSub t "RenderTask" || containsSub t "Render" then
      upsert routes "RenderTaskChat" t
    else if containsSub t "Agent" then
      upsert routes "AgentTask" t
    else upsert routes t t) []

/-- graph.py lines 1151–1183: edges contributed by router pseudo-nodes — a
conditional edge for `RouterTask1` (whose router function is always
registered), a plain direct edge to the FIRST target for every other router
kind. -/
def copilotRouterEdges (rconn : List (String × List String))
    (rsrc : List (String × String)) :
    List (String × Target) × List (String × String × List (String × String)) :=
  rconn.foldl (fun acc p =>
    let (dedges, cedges) := acc
    let (router_name, target_names) := p
    match dget rsrc router_name with
    | none => acc
    | some source_node =>
      if source_node == "" then acc
      else if normalize_node_name router_name == "RouterTask1" then
        (dedges, cedges ++ [(source_node, "router_task1_router",
          routerTask1Routes target_names)])
      else
        match target_names with
        | [] => acc
        | t :: _ => (dedges ++ [(source_node, tgtOf t)], cedges)) ([], [])

/-- graph.py lines 1185–1195: regular connections; with several targets the
source is wired (with a warning) to the first one only. -/
def copilotRegularEdges (cmap : List (String × List String)) :
    List (String × Target) :=
  cmap.foldl (fun acc p =>
    match p.2 with
    | [] => acc
    | t :: _ => acc ++ [(p.1, tgtOf t)]) []

def copilotAllSources (cmap : List (String × List String)) : List String :=
  cmap.map (fun p => p.1)

def copilotAllTargets (cmap rconn : List (String × List String)) : List String :=
  (cmap.foldl (fun acc p => acc ++ p.2) []) ++
    (rconn.foldl (fun acc p => acc ++ p.2) [])

/-- graph.py lines 1197–1211: `terminal_nodes = all_targets - all_sources`,
filtered to actually-added nodes, each wired to END.  (Python iterates a set;
the members are what matters.) -/
def copilotTerminalNodes (cmap rconn : List (String × List String))
    (nodeNames : List String) : List String :=
  (((copilotAllTargets cmap rconn).dedup.filter
      (fun n => n ∉ copilotAllSources cmap)).filter
    (fun n => n ∈ nodeNames))

/-- graph.py lines 1025–1213, `build_from_copilot_json` (graph shape). -/
def build_from_copilot_json (cfg : RawConfig) : Except String BuiltGraph :=
  let activities := cfg.WorkflowActivities.getD []
  if activities.isEmpty then
    .error "Workflow JSON missing \u0027WorkflowActivities\u0027"
  else
    let idToName := copilotIdToName activities
    let nodeNames := copilotNodeNames activities
    match copilotEntryPoint cfg idToName with
    | none => .error "Could not determine entry point from workflow"
    | some entry =>
      let (cmap, rconn, rsrc) := copilotConnFold cfg idToName
      let (routerDirect, routerCond) := copilotRouterEdges rconn rsrc
      let regular := copilotRegularEdges cmap
      let endEdges := (copilotTerminalNodes cmap rconn nodeNames).map
        (fun n => (n, Target.terminal))
      .ok { nodes := nodeNames, entry := some entry,
            edges := routerDirect ++ regular ++ endEdges,
            condEdges := routerCond }

/-- graph.py lines 1248–1273, `build_hardcoded`. -/
def build_hardcoded : BuiltGraph :=
  { nodes := ["LLMTask", "ToolTask", "AgentTask", "RetrieverTask",
              "RenderTaskChat", "RenderTaskEmail"]
    entry := some "LLMTask"
    edges := [("LLMTask", .node "ToolTask"), ("ToolTask", .node "AgentTask"),
              ("AgentTask", .node "RetrieverTask"),
              ("RenderTaskChat", .terminal), ("RenderTaskEmail", .terminal)]
    condEdges := [("RetrieverTask", "router",
      [("RenderTaskChat", "RenderTaskChat"), ("RenderTaskEmail", "RenderTaskEmail")])] }

inductive BuildOutcome where
  | fromGeneric : BuiltGraph → BuildOutcome
  | fromCopilot : BuiltGraph → BuildOutcome
  | fallbackHardcoded : BuiltGraph → BuildOutcome
deriving DecidableEq, Repr

/-- graph.py lines 1311–1341, `build_graph` (`cfg = none` is a missing
workflow.json).  Shape detection, then: the inner `try` catches
`ValueError`/`KeyError` from the generic parser and retries the Copilot
parser, and the outer `except Exception` turns ANY remaining failure into the
hardcoded fallback graph. -/
def build_graph (cfg : Option RawConfig) : BuildOutcome :=
  match cfg with
  | some config =>
    if config.WorkflowActivities.isSome && config.StartActivityId.isSome then
      match build_from_copilot_json config with
      | .ok g => .fromCopilot g
      | .error _ => .fallbackHardcoded build_hardcoded
    else if config.entry_point.isSome && config.nodes.isSome then
      match build_from_json config with
      | .ok g => .fromGeneric g
      | .error _ => .fallbackHardcoded build_hardcoded
    else
      match build_from_json config with
      | .ok g => .fromGeneric g
      | .error _ =>
        match build_from_copilot_json config with
        | .ok g => .fromCopilot g
        | .error _ => .fallbackHardcoded build_hardcoded
  | none => .fallbackHardcoded build_hardcoded

/-! ## Concrete graphs, configurations and states used by the theorems -/

/-- An inert LLM oracle (the model call raises / is unavailable; the source
then uses its fallback). -/
def llmNone : LLMOracle := fun _ => none

/-- An inert retriever oracle. -/
def retrieveNone : String → Nat → List (List (String × String)) := fun _ _ => []

/-- Modelled from the spec: the repository's `workflow.json` (the topology the
builders consume) is not under `src/`, so the refund-turn fragment around the
review step follows the spec's execution flow (§4.4, §8): the suspending
review step is followed by further steps toward the chat render, then the
terminal marker.  The handlers are the repository's own (`human_review_task`,
`retriever_task`, `render_chat`), with inert external oracles. -/
def reviewFragment : CGraph :=
  { entry := "HumanReviewTask"
    handlers := [("HumanReviewTask", human_review_task),
                 ("RetrieverTask", retriever_task retrieveNone),
                 ("RenderTaskChat", render_chat llmNone)]
    direct := [("HumanReviewTask", .node "RetrieverTask"),
               ("RetrieverTask", .node "RenderTaskChat"),
               ("RenderTaskChat", .terminal)]
    cond := [] }

/-- A fresh refund turn about order 1001, before the review step runs: the
intent/entities/tool fields a refund flow produces, no human input yet. -/
def c1State : GraphState :=
  { initial_state "I want a refund for order 1001" "chat" with
      intent := some "refund"
      entities := [("orderId", "1001")]
      tool_result := some [("orderId", JVal.str "1001"), ("amount", JVal.num "120.0")] }

/-- The suspended refund-review state: `c1State` after the review step has
set the flag and emitted the prompt. -/
def c2Suspended : GraphState := human_review_task c1State

/-- Resuming the suspended state with the inconclusive input "maybe"
(neither an approve nor a reject token). -/
def c2State : GraphState := { c2Suspended with human_input := some "maybe" }

/-- Modelled from the spec: the back-edge cycle `B -> B` of §8, instantiated
with the repository's `UserTask2` clarification handler. -/
def loopGraph : CGraph :=
  { entry := "UserTask2"
    handlers := [("UserTask2", user_task2)]
    direct := [("UserTask2", .node "UserTask2")]
    cond := [] }

/-- A one-step graph with the source's `workflow_router` conditional edge
whose route table lacks the `FastenerIntentClassifier` key (the key the
router returns on a fastener search). -/
def routeDemo : CGraph :=
  { entry := "LLMTask"
    handlers := [("LLMTask", user_task1)]
    direct := []
    cond := [("LLMTask", (workflow_router, [("ToolTask", .node "ToolTask")]))] }

/-- A turn whose state carries `isFastenerSearch = true`, so that
`workflow_router` returns the `FastenerIntentClassifier` key. -/
def fsState : GraphState :=
  { initial_state "find hex bolts" "chat" with isFastenerSearch := true }

/-- Order tools that raise on every call. -/
def toolsRaise : ToolOracles :=
  { lookup_order_status := fun _ => .error "boom"
    track_order := fun _ => .error "boom"
    process_refund := fun _ _ => .error "boom" }

/-- Order tools that return `None` (order not found) on every call. -/
def toolsNotFound : ToolOracles :=
  { lookup_order_status := fun _ => .ok none
    track_order := fun _ => .ok none
    process_refund := fun _ _ => .ok none }

/-- An order-status turn carrying a stale tool result, so that the
`tool_result = None` written by the failing call is visible. -/
def c9State : GraphState :=
  { initial_state "Check status of order 12345" "chat" with
      intent := some "order_status"
      entities := [("orderId", "12345")]
      tool_result := some [("status", JVal.str "stale")] }

/-- Copilot-shape definition with two activities that share the name
`AgentTask1`. -/
def cfgDupCopilot : RawConfig :=
  { entry_point := none, nodes := none, edges := [], conditional_edges := []
    WorkflowActivities := some
      [{ id := "1", name := "Start", type := "Start" },
       { id := "2", name := "AgentTask1", type := "" },
       { id := "3", name := "AgentTask1", type := "" }]
    WorkflowConnections := [{ source := "1", target := "2" },
                            { source := "2", target := "3" }]
    StartActivityId := some "1" }

/-- Generic-shape definition declaring the same node name twice. -/
def cfgDupGeneric : RawConfig :=
  { entry_point := some "LLMTask", nodes := some ["LLMTask", "LLMTask"]
    edges := [], conditional_edges := []
    WorkflowActivities := none, WorkflowConnections := [], StartActivityId := none }

/-- Copilot-shape definition whose only step is the entry and has no outgoing
connection at all. -/
def cfgEntryOnly : RawConfig :=
  { entry_point := none, nodes := none, edges := [], conditional_edges := []
    WorkflowActivities := some
      [{ id := "1", name := "Start", type := "Start" },
       { id := "2", name := "AgentTask1", type := "" }]
    WorkflowConnections := [{ source := "1", target := "2" }]
    StartActivityId := some "1" }

/-- Generic-shape definition with a declared `END` edge. -/
def cfgGenericEnd : RawConfig :=
  { entry_point := some "RenderTaskChat", nodes := some ["RenderTaskChat"]
    edges := [{ fromStep := "RenderTaskChat", toStep := "END" }]
    conditional_edges := []
    WorkflowActivities := none, WorkflowConnections := [], StartActivityId := none }

/-- A definition matching neither input shape. -/
def cfgEmpty : RawConfig :=
  { entry_point := none, nodes := none, edges := [], conditional_edges := []
    WorkflowActivities := none, WorkflowConnections := [], StartActivityId := none }

/-- Copilot-shape definition containing an activity (`FooTask`) whose name
resolves to no registered handler, next to two resolvable steps. -/
def cfgDropped : RawConfig :=
  { entry_point := none, nodes := none, edges := [], conditional_edges := []
    WorkflowActivities := some
      [{ id := "1", name := "Start", type := "Start" },
       { id := "2", name := "AgentTask1", type := "" },
       { id := "3", name := "RetrieverTask1", type := "" },
       { id := "4", name := "FooTask", type := "" }]
    WorkflowConnections := [{ source := "1", target := "2" },
                            { source := "2", target := "3" }]
    StartActivityId := some "1" }

/-- Generic-shape definition referencing an unregistered step name. -/
def cfgUnknownNode : RawConfig :=
  { entry_point := some "FooTask", nodes := some ["FooTask"]
    edges := [], conditional_edges := []
    WorkflowActivities := none, WorkflowConnections := [], StartActivityId := none }

/-- Generic-shape definition referencing an unregistered routing function. -/
def cfgBadRouter : RawConfig :=
  { entry_point := some "LLMTask", nodes := some ["LLMTask"]
    edges := []
    conditional_edges := [{ fromStep := "LLMTask",
                            router_function := some "no_such_router",
                            routes := [("ToolTask", "ToolTask")] }]
    WorkflowActivities := none, WorkflowConnections := [], StartActivityId := none }

/-! ## Supporting lemmas -/

theorem dget_map_upd {V : Type} (s u : List (String × V)) (k : String) :
    dget (s.map (fun p => (p.1, (dget u p.1).getD p.2))) k
      = (dget s k).map (fun v => (dget u k).getD v) := by
  induction s with
  | nil => rfl
  | cons p rest ih =>
    cases hb : (p.1 == k) with
    | true =>
      have hk : p.1 = k := by simpa using hb
      subst hk
      simp [dget, hb]
    | false => simp [dget, hb, ih]

theorem dget_append {V : Type} (a b : List (String × V)) (k : String) :
    dget (a ++ b) k = match dget a k with
      | some v => some v
      | none => dget b k := by
  induction a with
  | nil => simp [dget]
  | cons p rest ih =>
    cases hb : (p.1 == k) with
    | true => simp [dget, hb]
    | false => simp [dget, hb, ih]

theorem dget_filter_none {V : Type} (s u : List (String × V)) (k : String) :
    dget (u.filter (fun p => (dget s p.1).isNone)) k
      = if (dget s k).isNone then dget u k else none := by
  induction u with
  | nil => simp [dget]
  | cons p rest ih =>
    cases hn : (dget s p.1).isNone with
    | true =>
      rw [List.filter_cons_of_pos (by simpa using hn)]
      cases hb : (p.1 == k) with
      | true =>
        have hk : p.1 = k := by simpa using hb
        subst hk
        simp [dget, hb, hn]
      | false => simp [dget, hb, ih]
    | false =>
      rw [List.filter_cons_of_neg (by simp [hn])]
      cases hb : (p.1 == k) with
      | true =>
        have hk : p.1 = k := by simpa using hb
        subst hk
        simp [dget, hb, hn, ih]
      | false => simp [dget, hb, ih]

theorem append_ne_empty_left (a b : String) (h : a ≠ "") : a ++ b ≠ "" := by
  intro he
  apply h
  have hd := congrArg String.data he
  rw [String.data_append] at hd
  have : a.data = [] := (List.append_eq_nil.mp hd).1
  cases a
  simp_all

theorem review_prompt_ne_empty (st : GraphState) : review_prompt st ≠ "" := by
  unfold review_prompt
  apply append_ne_empty_left
  apply append_ne_empty_left
  apply append_ne_empty_left
  apply append_ne_empty_left
  decide

/-- `human_review_task` on a refund state with an empty (or absent) human
input: the suspension branch. -/
theorem human_review_task_suspend (st : GraphState)
    (h1 : st.intent = some "refund")
    (h2 : pyTrim (pyLower (st.human_input.getD "")) = "") :
    human_review_task st =
      { st with needs_human_review := true,
                review_message := some (review_prompt st),
                response := some (review_prompt st) } := by
  unfold human_review_task
  rw [h1]
  simp [h2, review_prompt]

/-- `retriever_task` is the identity when no agent plan is present. -/
theorem retriever_task_noop (r : String → Nat → List (List (String × String)))
    (st : GraphState) (h : st.agent_result = none) : retriever_task r st = st := by
  simp [retriever_task, h]

theorem runFrom_step_node (g : CGraph) (fuel : Nat) (cur nxt : String)
    (st : GraphState) (trace : List String) (h : GraphState → GraphState)
    (hh : dget g.handlers cur = some h)
    (hc : dget g.cond cur = none)
    (hd : dget g.direct cur = some (.node nxt)) :
    runFrom g (fuel + 1) cur st trace = runFrom g fuel nxt (h st) (trace ++ [cur]) := by
  simp [runFrom, hh, hc, hd]

theorem runFrom_step_end (g : CGraph) (fuel : Nat) (cur : String)
    (st : GraphState) (trace : List String) (h : GraphState → GraphState)
    (hh : dget g.handlers cur = some h)
    (hc : dget g.cond cur = none)
    (hd : dget g.direct cur = some .terminal) :
    runFrom g (fuel + 1) cur st trace = .ok (h st, trace ++ [cur]) := by
  simp [runFrom, hh, hc, hd]

theorem add_nodesAux_dup : ∀ (ns : List String) (acc : List String),
    acc.Nodup → ¬ (acc ++ ns.filter (fun n => !decide (n ∈ ROUTER_NODES))).Nodup →
    ∃ msg, add_nodesAux acc ns = .error msg := by
  intro ns
  induction ns with
  | nil => intro acc h1 h2; simp at h2; exact absurd h1 h2
  | cons n rest ih =>
    intro acc h1 h2
    by_cases hr : n ∈ ROUTER_NODES
    · rw [List.filter_cons_of_neg (by simp [hr])] at h2
      simpa [add_nodesAux, hr] using ih acc h1 h2
    · rw [List.filter_cons_of_pos (by simp [hr])] at h2
      by_cases hk : n ∈ node_mapping_keys
      · by_cases ha : n ∈ acc
        · exact ⟨"Node \u0027" ++ n ++ "\u0027 already present.",
            by simp [add_nodesAux, hr, hk, node_mapping_isNone, ha]⟩
        · have hacc : (acc ++ [n]).Nodup := by
            simp [List.nodup_append, h1, ha]
          have h2' : ¬ ((acc ++ [n]) ++
              rest.filter (fun n => !decide (n ∈ ROUTER_NODES))).Nodup := by
            simpa [List.append_assoc] using h2
          simpa [add_nodesAux, hr, hk, node_mapping_isNone, ha] using
            ih (acc ++ [n]) hacc h2'
      · exact ⟨"Node function \u0027" ++ n ++ "\u0027 not found",
            by simp [add_nodesAux, hr, hk]⟩

theorem add_nodesAux_unknown : ∀ (ns : List String) (acc : List String)
    (n : String), n ∈ ns → n ∉ ROUTER_NODES → n ∉ node_mapping_keys →
    ∃ msg, add_nodesAux acc ns = .error msg := by
  intro ns
  induction ns with
  | nil => intro acc n h; simp at h
  | cons m rest ih =>
    intro acc n hmem hr hk
    by_cases hrm : m ∈ ROUTER_NODES
    · have hn : n ∈ rest := by
        rcases List.mem_cons.mp hmem with h | h
        · exact absurd (h ▸ hrm) hr
        · exact h
      simpa [add_nodesAux, hrm] using ih acc n hn hr hk
    · by_cases hkm : m ∈ node_mapping_keys
      · by_cases ham : m ∈ acc
        · exact ⟨"Node \u0027" ++ m ++ "\u0027 already present.",
            by simp [add_nodesAux, hrm, hkm, node_mapping_isNone, ham]⟩
        · have hn : n ∈ rest := by
            rcases List.mem_cons.mp hmem with h | h
            · exact absurd (h ▸ hkm) hk
            · exact h
          simpa [add_nodesAux, hrm, hkm, node_mapping_isNone, ham] using
            ih (acc ++ [m]) n hn hr hk
      · exact ⟨"Node function \u0027" ++ m ++ "\u0027 not found",
            by simp [add_nodesAux, hrm, hkm]⟩

theorem add_conditional_edgesAux_bad :
    ∀ (ces : List CondCfg) (rm : List (String × String)) (ce : CondCfg),
    ce ∈ ces →
    (match ce.router_function with
     | some r => r ∉ node_mapping_keys
     | none => True) →
    ∃ msg, add_conditional_edgesAux rm ces = .error msg := by
  intro ces
  induction ces with
  | nil => intro rm ce h; simp at h
  | cons c rest ih =>
    intro rm ce hmem hbad
    have hknown : ∀ (c' : CondCfg),
        (match c'.router_function with
         | some r => r ∉ node_mapping_keys
         | none => True) →
        (match c'.router_function with
         | some r => decide (r ∈ node_mapping_keys)
         | none => false) = false := by
      intro c' h
      cases hrf : c'.router_function with
      | none => simp
      | some r => rw [hrf] at h; simp [h]
    rcases List.mem_cons.mp hmem with h | h
    · subst h
      exact ⟨"Router function \u0027" ++ optStr ce.router_function ++ "\u0027 not found",
        by simp [add_conditional_edgesAux, hknown ce hbad]⟩
    · by_cases hck : (match c.router_function with
        | some r => decide (r ∈ node_mapping_keys)
        | none => false) = false
      · exact ⟨"Router function \u0027" ++ optStr c.router_function ++ "\u0027 not found",
          by simp [add_conditional_edgesAux, hck]⟩
      · obtain ⟨msg, hmsg⟩ := ih rm ce h hbad
        by_cases hcn : node_mapping_isNone (c.router_function.getD "")
        · exact ⟨"Router function \u0027" ++ optStr c.router_function ++ "\u0027 is None",
            by simp [add_conditional_edgesAux, hck, hcn]⟩
        · exact ⟨msg, by simp [add_conditional_edgesAux, hck, hcn, hmsg]⟩

theorem copilotNodeNamesAux_nodup : ∀ (acts : List Activity) (acc : List String),
    acc.Nodup → (copilotNodeNamesAux acc acts).Nodup := by
  intro acts
  induction acts with
  | nil => intro acc h; simpa [copilotNodeNamesAux] using h
  | cons a rest ih =>
    intro acc h
    by_cases hs : a.type == "Start"
    · simpa [copilotNodeNamesAux, hs] using ih acc h
    · by_cases hk : normalize_node_name a.name ∈ node_mapping_keys
      · by_cases hrn : node_mapping_isNone (normalize_node_name a.name)
        · simpa [copilotNodeNamesAux, hs, hk, hrn] using ih acc h
        · by_cases ha : a.name ∈ acc
          · simpa [copilotNodeNamesAux, hs, hk, hrn, ha] using ih acc h
          · have hacc : (acc ++ [a.name]).Nodup := by
              simp [List.nodup_append, h, ha]
            simpa [copilotNodeNamesAux, hs, hk, hrn, ha] using
              ih (acc ++ [a.name]) hacc
      · simpa [copilotNodeNamesAux, hs, hk] using ih acc h

theorem copilotNodeNamesAux_mem : ∀ (acts : List Activity) (acc : List String)
    (n : String), n ∈ copilotNodeNamesAux acc acts →
    n ∈ acc ∨ ∃ a, a ∈ acts ∧ a.name = n ∧
      normalize_node_name n ∈ node_mapping_keys := by
  intro acts
  induction acts with
  | nil =>
    intro acc n h
    exact Or.inl (by simpa [copilotNodeNamesAux] using h)
  | cons a rest ih =>
    intro acc n h
    by_cases hs : a.type == "Start"
    · rcases ih acc n (by simpa [copilotNodeNamesAux, hs] using h) with h' | ⟨b, hb, hbn, hbk⟩
      · exact Or.inl h'
      · exact Or.inr ⟨b, List.mem_cons_of_mem _ hb, hbn, hbk⟩
    · by_cases hk : normalize_node_name a.name ∈ node_mapping_keys
      · by_cases hrn : node_mapping_isNone (normalize_node_name a.name)
        · rcases ih acc n (by simpa [copilotNodeNamesAux, hs, hk, hrn] using h) with
            h' | ⟨b, hb, hbn, hbk⟩
          · exact Or.inl h'
          · exact Or.inr ⟨b, List.mem_cons_of_mem _ hb, hbn, hbk⟩
        · by_cases ha : a.name ∈ acc
          · rcases ih acc n (by simpa [copilotNodeNamesAux, hs, hk, hrn, ha] using h) with
              h' | ⟨b, hb, hbn, hbk⟩
            · exact Or.inl h'
            · exact Or.inr ⟨b, List.mem_cons_of_mem _ hb, hbn, hbk⟩
          · rcases ih (acc ++ [a.name]) n
              (by simpa [copilotNodeNamesAux, hs, hk, hrn, ha] using h) with
              h' | ⟨b, hb, hbn, hbk⟩
            · rcases List.mem_append.mp h' with h'' | h''
              · exact Or.inl h''
              · have hne : a.name = n := (by simpa using h'' : n = a.name).symm
                exact Or.inr ⟨a, List.mem_cons_self _ _, hne, hne ▸ hk⟩
            · exact Or.inr ⟨b, List.mem_cons_of_mem _ hb, hbn, hbk⟩
      · rcases ih acc n (by simpa [copilotNodeNamesAux, hs, hk] using h) with
          h' | ⟨b, hb, hbn, hbk⟩
        · exact Or.inl h'
        · exact Or.inr ⟨b, List.mem_cons_of_mem _ hb, hbn, hbk⟩

theorem add_edgesAux_end : ∀ (es : List EdgeCfg) (cn : List String) (s : String),
    (s, Target.terminal) ∈ add_edgesAux cn es →
    ∃ e, e ∈ es ∧ e.fromStep = s ∧ e.toStep = "END" := by
  intro es
  induction es with
  | nil => intro cn s h; simp [add_edgesAux] at h
  | cons e rest ih =>
    intro cn s h
    by_cases hr : e.fromStep ∈ ROUTER_NODES ∨ e.toStep ∈ ROUTER_NODES
    · obtain ⟨e', he', hs', ht'⟩ := ih cn s (by simpa [add_edgesAux, hr] using h)
      exact ⟨e', List.mem_cons_of_mem _ he', hs', ht'⟩
    · by_cases hc : e.fromStep ∈ cn
      · obtain ⟨e', he', hs', ht'⟩ := ih cn s (by simpa [add_edgesAux, hr, hc] using h)
        exact ⟨e', List.mem_cons_of_mem _ he', hs', ht'⟩
      · have hsplit : (s = e.fromStep ∧ Target.terminal = tgtOf e.toStep) ∨
            (s, Target.terminal) ∈ add_edgesAux cn rest := by
          simpa [add_edgesAux, hr, hc] using h
        rcases hsplit with ⟨hs', ht'⟩ | htl
        · have hend : e.toStep = "END" := by
            by_contra hne
            simp [tgtOf, hne] at ht'
          exact ⟨e, List.mem_cons_self _ _, hs'.symm, hend⟩
        · obtain ⟨e', he', hs', ht'⟩ := ih cn s htl
          exact ⟨e', List.mem_cons_of_mem _ he', hs', ht'⟩

theorem build_from_json_nodes_error (cfg : RawConfig) (msg : String)
    (h : add_nodes cfg = .error msg) : build_from_json cfg = .error msg := by
  unfold build_from_json
  rw [h]
  rfl

theorem build_from_json_entry_error (cfg : RawConfig) (msg : String)
    (l : List String) (hn : add_nodes cfg = .ok l)
    (he : set_entry_point cfg = .error msg) :
    build_from_json cfg = .error msg := by
  unfold build_from_json
  rw [hn, he]
  rfl

theorem build_from_json_cond_error (cfg : RawConfig) (msg entry : String)
    (l : List String) (hn : add_nodes cfg = .ok l)
    (he : set_entry_point cfg = .ok entry)
    (hc : add_conditional_edgesAux (build_router_mapping cfg)
      cfg.conditional_edges = .error msg) :
    build_from_json cfg = .error msg := by
  unfold build_from_json
  simp only [hn, he, hc]
  rfl

/-! ## Claim theorems -/

/-- C1 counterexample: a refund turn in which `human_review_task` sets the
suspension flag does NOT halt the turn — the trace of the run shows that
`RetrieverTask` and `RenderTaskChat` still execute after the suspending
step, contradicting "no step after the suspending step executes". -/
theorem c1_counterexample :
    (human_review_task c1State).needs_human_review = true ∧
    runTrace reviewFragment 25 c1State =
      some ["HumanReviewTask", "RetrieverTask", "RenderTaskChat"] :=
  ⟨rfl, rfl⟩

/-- C1 (amended): when `human_review_task` sets the suspension flag, the
engine does not halt — the steps after it still execute — but they return
the state unchanged (`retriever_task` skips without an agent plan,
the guard in `render_chat` returns the state as-is when a response is present and
the review flag is set), so the turn's final state is exactly the suspended
state: `needs_human_review = true` with the review prompt as the response. -/
theorem c1_cooperative_suspension (n : Nat) (st : GraphState)
    (h1 : st.intent = some "refund")
    (h2 : pyTrim (pyLower (st.human_input.getD "")) = "")
    (h3 : st.agent_result = none) :
    runFrom reviewFragment (n + 3) reviewFragment.entry st [] =
      .ok (human_review_task st,
        ["HumanReviewTask", "RetrieverTask", "RenderTaskChat"]) ∧
    (human_review_task st).needs_human_review = true := by
  have hsusp := human_review_task_suspend st h1 h2
  have hret : retriever_task retrieveNone (human_review_task st) =
      human_review_task st := by
    apply retriever_task_noop
    rw [hsusp]
    exact h3
  have hrender : render_chat llmNone (human_review_task st) =
      human_review_task st := by
    rw [hsusp]
    unfold render_chat
    simp [truthyS, review_prompt_ne_empty st]
  constructor
  · rw [show reviewFragment.entry = "HumanReviewTask" from rfl]
    rw [show n + 3 = (n + 2) + 1 from rfl]
    rw [runFrom_step_node reviewFragment (n + 2) "HumanReviewTask" "RetrieverTask"
      st [] human_review_task rfl rfl rfl]
    simp only [List.nil_append]
    rw [show n + 2 = (n + 1) + 1 from rfl]
    rw [runFrom_step_node reviewFragment (n + 1) "RetrieverTask" "RenderTaskChat"
      (human_review_task st) ["HumanReviewTask"] (retriever_task retrieveNone)
      rfl rfl rfl]
    rw [hret]
    rw [runFrom_step_end reviewFragment n "RenderTaskChat" (human_review_task st)
      (["HumanReviewTask"] ++ ["RetrieverTask"]) (render_chat llmNone) rfl rfl rfl]
    rw [hrender]
    rfl
  · rw [hsusp]

/-- C1 witness: the amended statement at an explicit refund state. -/
theorem c1_cooperative_suspension_witness :
    c1State.intent = some "refund" ∧
    pyTrim (pyLower (c1State.human_input.getD "")) = "" ∧
    c1State.agent_result = none ∧
    (runFrom reviewFragment 25 reviewFragment.entry c1State [] =
      .ok (human_review_task c1State,
        ["HumanReviewTask", "RetrieverTask", "RenderTaskChat"]) ∧
     (human_review_task c1State).needs_human_review = true) :=
  ⟨rfl, rfl, rfl, c1_cooperative_suspension 22 c1State rfl rfl rfl⟩

/-- C2 counterexample: resuming the suspended refund-review state with
`"maybe"` — not a recognized approve or reject token — does not re-suspend:
the handler clears the flag and cancels the refund, so the state is not
"otherwise unchanged" and no prompt is re-emitted. -/
theorem c2_counterexample :
    c2State.needs_human_review = true ∧
    c2State.intent = some "refund" ∧
    (human_review_task c2State).needs_human_review = false ∧
    (human_review_task c2State).response =
      some "Refund request has been cancelled." :=
  ⟨rfl, rfl, rfl, rfl⟩

/-- C2 (amended): only an EMPTY (or absent) human input re-suspends the
refund review, re-emitting the same prompt, and that is idempotent; any
nonempty input that is not a recognized approve token clears the flag and
cancels the refund instead of re-suspending. -/
theorem c2_inconclusive_resume :
    (∀ st : GraphState, st.intent = some "refund" →
      pyTrim (pyLower (st.human_input.getD "")) = "" →
      human_review_task st =
        { st with needs_human_review := true,
                  review_message := some (review_prompt st),
                  response := some (review_prompt st) } ∧
      human_review_task (human_review_task st) = human_review_task st) ∧
    (∀ st : GraphState, st.intent = some "refund" →
      pyTrim (pyLower (st.human_input.getD "")) ∉ ["yes", "y", "approve", "confirm"] →
      pyTrim (pyLower (st.human_input.getD "")) ≠ "" →
      human_review_task st =
        { st with needs_human_review := false,
                  response := some "Refund request has been cancelled.",
                  review_message := none }) := by
  constructor
  · intro st h1 h2
    have hsusp := human_review_task_suspend st h1 h2
    refine ⟨hsusp, ?_⟩
    rw [hsusp]
    have hsusp2 := human_review_task_suspend
      { st with needs_human_review := true,
                review_message := some (review_prompt st),
                response := some (review_prompt st) } h1 h2
    rw [hsusp2]
    rfl
  · intro st h1 h2 h3
    unfold human_review_task
    rw [h1]
    simp [h2, h3]

/-- C2 witness: the amended statement at explicit states — re-suspension with
empty input is idempotent at `c1State`, and the inconclusive input `"maybe"`
cancels at `c2State`. -/
theorem c2_inconclusive_resume_witness :
    c1State.intent = some "refund" ∧
    pyTrim (pyLower (c1State.human_input.getD "")) = "" ∧
    human_review_task (human_review_task c1State) = human_review_task c1State ∧
    c2State.intent = some "refund" ∧
    pyTrim (pyLower (c2State.human_input.getD "")) ∉ ["yes", "y", "approve", "confirm"] ∧
    pyTrim (pyLower (c2State.human_input.getD "")) ≠ "" ∧
    human_review_task c2State =
      { c2State with needs_human_review := false,
                     response := some "Refund request has been cancelled.",
                     review_message := none } :=
  ⟨rfl, rfl, (c2_inconclusive_resume.1 c1State rfl rfl).2, rfl,
   by decide, by decide,
   c2_inconclusive_resume.2 c2State rfl (by decide) (by decide)⟩

/-- C3 counterexample: a Copilot-shape definition declaring two activities
named `AgentTask1` compiles to a graph with a SINGLE node of that name — the
second occurrence is collapsed by the name-keyed handler map, no suffixed
`AgentTask1_2` node is generated, and the edge that pointed to the second
occurrence becomes a self-edge on the first. -/
theorem c3_counterexample :
    build_from_copilot_json cfgDupCopilot =
      .ok { nodes := ["AgentTask1"], entry := some "AgentTask1",
            edges := [("AgentTask1", Target.node "AgentTask1")],
            condEdges := [] } :=
  rfl

/-- C3 (amended): no numeric suffixing exists — the Copilot-shape builder
keys nodes by name (node lists are duplicate-free and every compiled node
name is literally one of the declared activity names), and the generic-shape
builder fails on a duplicate declared node name instead of renaming it. -/
theorem c3_no_suffixing :
    (∀ acts : List Activity, (copilotNodeNames acts).Nodup) ∧
    (∀ (acts : List Activity) (n : String), n ∈ copilotNodeNames acts →
      ∃ a, a ∈ acts ∧ a.name = n) ∧
    (∀ cfg : RawConfig,
      ¬ ((cfg.nodes.getD []).filter (fun n => !decide (n ∈ ROUTER_NODES))).Nodup →
      ∃ msg, build_from_json cfg = .error msg) := by
  refine ⟨?_, ?_, ?_⟩
  · intro acts
    exact copilotNodeNamesAux_nodup acts [] List.nodup_nil
  · intro acts n h
    rcases copilotNodeNamesAux_mem acts [] n h with h' | ⟨a, ha, hn, _⟩
    · simp at h'
    · exact ⟨a, ha, hn⟩
  · intro cfg h
    obtain ⟨msg, hmsg⟩ :=
      add_nodesAux_dup (cfg.nodes.getD []) [] List.nodup_nil (by simpa using h)
    exact ⟨msg, build_from_json_nodes_error cfg msg hmsg⟩

/-- C3 witness: the amended statement at explicit definitions. -/
theorem c3_no_suffixing_witness :
    ¬ ((cfgDupGeneric.nodes.getD []).filter
        (fun n => !decide (n ∈ ROUTER_NODES))).Nodup ∧
    (∃ msg, build_from_json cfgDupGeneric = .error msg) ∧
    "AgentTask1" ∈ copilotNodeNames (cfgDupCopilot.WorkflowActivities.getD []) ∧
    (∃ a, a ∈ cfgDupCopilot.WorkflowActivities.getD [] ∧ a.name = "AgentTask1") :=
  ⟨by decide, c3_no_suffixing.2.2 cfgDupGeneric (by decide), by decide,
   c3_no_suffixing.2.1 (cfgDupCopilot.WorkflowActivities.getD []) "AgentTask1"
     (by decide)⟩

/-- C4 counterexample: a Copilot-shape definition whose single step is the
entry point and has no outgoing connection compiles to a graph in which that
step has NO outgoing transition at all — it is not wired to END, because the
auto-END phase only considers steps that appear as targets of regular
connections. -/
theorem c4_counterexample :
    build_from_copilot_json cfgEntryOnly =
      .ok { nodes := ["AgentTask1"], entry := some "AgentTask1",
            edges := [], condEdges := [] } :=
  rfl

/-- C4 (amended): automatic END wiring happens only in the Copilot shape and
exactly for the compiled nodes that occur as a target of some connection —
a regular connection or a router-node branch — but never as a source of a
regular connection (`all_targets - all_sources`, graph.py lines 1197–1208);
a step that appears in no connection at all (such as an entry step with no
outgoing connection) is not wired to END, and the generic-shape builder
performs no automatic END wiring — every END edge it emits comes from an
explicitly declared `"END"` edge. -/
theorem c4_end_wiring_scope :
    (∀ (cmap rconn : List (String × List String)) (nodeNames : List String)
       (n : String),
      n ∈ copilotTerminalNodes cmap rconn nodeNames ↔
        (n ∈ copilotAllTargets cmap rconn ∧ n ∉ copilotAllSources cmap ∧
         n ∈ nodeNames)) ∧
    (∀ (cmap rconn : List (String × List String)) (nodeNames : List String)
       (n : String),
      n ∉ copilotAllTargets cmap rconn →
      n ∉ copilotTerminalNodes cmap rconn nodeNames) ∧
    (∀ (cfg : RawConfig) (s : String), (s, Target.terminal) ∈ add_edges cfg →
      ∃ e, e ∈ cfg.edges ∧ e.fromStep = s ∧ e.toStep = "END") := by
  refine ⟨?_, ?_, ?_⟩
  · intro cmap rconn nodeNames n
    simp [copilotTerminalNodes, List.mem_filter, List.mem_dedup, and_assoc]
    tauto
  · intro cmap rconn nodeNames n h hin
    simp [copilotTerminalNodes, List.mem_filter, List.mem_dedup] at hin
    tauto
  · intro cfg s h
    exact add_edgesAux_end cfg.edges _ s h

/-- C4 witness: the amended statement at explicit inputs — a generic
definition with a declared END edge, and a node appearing in no connection
at all that receives no END wire. -/
theorem c4_end_wiring_scope_witness :
    ("RenderTaskChat", Target.terminal) ∈ add_edges cfgGenericEnd ∧
    (∃ e, e ∈ cfgGenericEnd.edges ∧ e.fromStep = "RenderTaskChat" ∧
      e.toStep = "END") ∧
    "AgentTask1" ∉ copilotAllTargets ([] : List (String × List String)) [] ∧
    "AgentTask1" ∉ copilotTerminalNodes [] [] ["AgentTask1"] :=
  ⟨by decide, c4_end_wiring_scope.2.2 cfgGenericEnd "RenderTaskChat" (by decide),
   by decide,
   c4_end_wiring_scope.2.1 [] [] ["AgentTask1"] "AgentTask1" (by decide)⟩

/-- C5: a conditional transition whose routing function returns a key absent
from its route table makes the run fail with a routing-key error (the source
has no fallback-route mechanism, so "no fallback is declared" always holds),
and `orchestrate_workflow` surfaces any run error to the caller as a failed
turn — an error-response state — never as a silent no-op. -/
theorem c5_missing_route_fails :
    (∀ (g : CGraph) (fuel : Nat) (cur : String) (st : GraphState)
       (trace : List String) (h : GraphState → GraphState)
       (router : GraphState → String) (routes : List (String × Target)),
      dget g.handlers cur = some h →
      dget g.cond cur = some (router, routes) →
      dget routes (router (h st)) = none →
      runFrom g (fuel + 1) cur st trace =
        .error (.routingKeyError cur (router (h st)))) ∧
    (∀ (g : CGraph) (fuel : Nat) (input channel : String)
       (human_input : Option String) (e : RunError),
      runFrom g fuel g.entry (orchestrate_initial input channel human_input) [] =
        .error e →
      orchestrate_workflow g fuel input channel human_input =
        .errorResult
          { input := input
            user_input := input
            channel := channel
            response := "Error executing workflow: " ++ describeErr e
            error := describeErr e }) := by
  constructor
  · intro g fuel cur st trace h router routes hh hc hr
    simp [runFrom, hh, hc, hr]
  · intro g fuel input channel human_input e hrun
    simp [orchestrate_workflow, hrun]

/-- C5 witness: the statement at an explicit graph, routing key and state. -/
theorem c5_missing_route_fails_witness :
    dget routeDemo.handlers "LLMTask" = some user_task1 ∧
    dget routeDemo.cond "LLMTask" =
      some (workflow_router, [("ToolTask", Target.node "ToolTask")]) ∧
    dget [("ToolTask", Target.node "ToolTask")]
      (workflow_router (user_task1 fsState)) = none ∧
    runFrom routeDemo 6 "LLMTask" fsState [] =
      .error (.routingKeyError "LLMTask" (workflow_router (user_task1 fsState))) ∧
    runFrom routeDemo 7 routeDemo.entry
      (orchestrate_initial "track order 77" "chat" none) [] =
      .error (.unknownNode "ToolTask") ∧
    orchestrate_workflow routeDemo 7 "track order 77" "chat" none =
      .errorResult
        { input := "track order 77"
          user_input := "track order 77"
          channel := "chat"
          response := "Error executing workflow: " ++ describeErr (.unknownNode "ToolTask")
          error := describeErr (.unknownNode "ToolTask") } :=
  ⟨rfl, rfl, rfl,
   c5_missing_route_fails.1 routeDemo 5 "LLMTask" fsState [] user_task1
     workflow_router [("ToolTask", Target.node "ToolTask")] rfl rfl rfl,
   rfl,
   c5_missing_route_fails.2 routeDemo 7 "track order 77" "chat" none
     (.unknownNode "ToolTask") rfl⟩

/-- C6 counterexample: an input matching neither shape does NOT fail — both
parsers raise, the `except Exception` handler in `build_graph` catches, and the hardcoded
six-node graph is silently substituted for the caller's definition. -/
theorem c6_counterexample :
    build_graph (some cfgEmpty) = .fallbackHardcoded build_hardcoded :=
  rfl

/-- C6 (amended): for every definition that matches neither the generic shape
nor the activity/connection shape, both parsers fail and `build_graph`
returns the hardcoded fallback graph — the definition error is logged but
not surfaced, and a runnable default graph is substituted. -/
theorem c6_neither_shape_fallback :
    ∀ cfg : RawConfig, cfg.entry_point = none → cfg.WorkflowActivities = none →
      build_graph (some cfg) = .fallbackHardcoded build_hardcoded := by
  intro cfg h1 h2
  have hgen : ∃ msg, build_from_json cfg = .error msg := by
    cases hn : add_nodes cfg with
    | error msg => exact ⟨msg, build_from_json_nodes_error cfg msg hn⟩
    | ok l => exact ⟨"Workflow JSON missing \u0027entry_point\u0027",
        build_from_json_entry_error cfg _ l hn (by simp [set_entry_point, h1])⟩
  have hcop : build_from_copilot_json cfg =
      .error "Workflow JSON missing \u0027WorkflowActivities\u0027" := by
    simp [build_from_copilot_json, h2]
  obtain ⟨msg, hmsg⟩ := hgen
  simp [build_graph, h1, h2, hmsg, hcop]

/-- C6 witness: the amended statement at the explicit empty definition. -/
theorem c6_neither_shape_fallback_witness :
    cfgEmpty.entry_point = none ∧ cfgEmpty.WorkflowActivities = none ∧
    build_graph (some cfgEmpty) = .fallbackHardcoded build_hardcoded :=
  ⟨rfl, rfl, c6_neither_shape_fallback cfgEmpty rfl rfl⟩

/-- C7 counterexample: a Copilot-shape definition containing the unresolvable
step `FooTask` COMPILES SUCCESSFULLY — the step is dropped (with only a
console warning) and the remaining graph is built and runnable, contradicting
"compilation raises a DefinitionError and aborts". -/
theorem c7_counterexample :
    build_from_copilot_json cfgDropped =
      .ok { nodes := ["AgentTask1", "RetrieverTask1"], entry := some "AgentTask1",
            edges := [("AgentTask1", Target.node "RetrieverTask1"),
                      ("RetrieverTask1", Target.terminal)],
            condEdges := [] } ∧
    "FooTask" ∉ (["AgentTask1", "RetrieverTask1"] : List String) :=
  ⟨rfl, by decide⟩

/-- C7 (amended): the GENERIC-shape builder aborts with an error on an
unresolved step name or an unresolved routing-function name, but the
Copilot-shape builder silently drops an activity whose normalized name has no
registered handler and compiles the rest. -/
theorem c7_unresolved_names :
    (∀ (cfg : RawConfig) (n : String), n ∈ cfg.nodes.getD [] →
      n ∉ ROUTER_NODES → n ∉ node_mapping_keys →
      ∃ msg, build_from_json cfg = .error msg) ∧
    (∀ (cfg : RawConfig) (ce : CondCfg), ce ∈ cfg.conditional_edges →
      (match ce.router_function with
       | some r => r ∉ node_mapping_keys
       | none => True) →
      ∃ msg, build_from_json cfg = .error msg) ∧
    (∀ (acts : List Activity) (a : Activity), a ∈ acts →
      normalize_node_name a.name ∉ node_mapping_keys →
      a.name ∉ copilotNodeNames acts) := by
  refine ⟨?_, ?_, ?_⟩
  · intro cfg n hmem hr hk
    obtain ⟨msg, hmsg⟩ := add_nodesAux_unknown (cfg.nodes.getD []) [] n hmem hr hk
    exact ⟨msg, build_from_json_nodes_error cfg msg hmsg⟩
  · intro cfg ce hmem hbad
    cases hn : add_nodes cfg with
    | error msg => exact ⟨msg, build_from_json_nodes_error cfg msg hn⟩
    | ok l =>
      cases he : set_entry_point cfg with
      | error msg => exact ⟨msg, build_from_json_entry_error cfg msg l hn he⟩
      | ok entry =>
        obtain ⟨msg, hmsg⟩ := add_conditional_edgesAux_bad cfg.conditional_edges
          (build_router_mapping cfg) ce hmem hbad
        exact ⟨msg, build_from_json_cond_error cfg msg entry l hn he hmsg⟩
  · intro acts a hmem hk
    intro hin
    rcases copilotNodeNamesAux_mem acts [] a.name hin with h | ⟨b, _, _, hbk⟩
    · simp at h
    · exact hk hbk

/-- C7 witness: the amended statement at explicit definitions. -/
theorem c7_unresolved_names_witness :
    "FooTask" ∈ cfgUnknownNode.nodes.getD [] ∧
    "FooTask" ∉ ROUTER_NODES ∧
    "FooTask" ∉ node_mapping_keys ∧
    (∃ msg, build_from_json cfgUnknownNode = .error msg) ∧
    (∃ msg, build_from_json cfgBadRouter = .error msg) ∧
    normalize_node_name "FooTask" ∉ node_mapping_keys ∧
    "FooTask" ∉ copilotNodeNames (cfgDropped.WorkflowActivities.getD []) :=
  ⟨by decide, by decide, by decide,
   c7_unresolved_names.1 cfgUnknownNode "FooTask" (by decide) (by decide) (by decide),
   c7_unresolved_names.2.1 cfgBadRouter
     { fromStep := "LLMTask", router_function := some "no_such_router",
       routes := [("ToolTask", "ToolTask")] } (by decide) (by decide),
   by decide,
   c7_unresolved_names.2.2 (cfgDropped.WorkflowActivities.getD [])
     { id := "4", name := "FooTask", type := "" } (by decide) (by decide)⟩

/-- C8: a back-edge cycle (`UserTask2 -> UserTask2`) never completes within
any configured step bound, so the run raises the recursion-limit error and
`orchestrate_workflow` converts it into a returned terminal result (the
error-response state) — the turn neither loops forever nor surfaces an
unhandled error, whatever the bound. -/
theorem c8_cycle_bound_terminates :
    (∀ (fuel : Nat) (st : GraphState) (trace : List String),
      runFrom loopGraph fuel "UserTask2" st trace = .error .recursionLimit) ∧
    (∀ (fuel : Nat) (input channel : String),
      orchestrate_workflow loopGraph fuel input channel none =
        .errorResult
          { input := input
            user_input := input
            channel := channel
            response := "Error executing workflow: Recursion limit reached"
            error := "Recursion limit reached" }) := by
  have ha : ∀ (fuel : Nat) (st : GraphState) (trace : List String),
      runFrom loopGraph fuel "UserTask2" st trace = .error .recursionLimit := by
    intro fuel
    induction fuel with
    | zero => intro st trace; rfl
    | succ n ih =>
      intro st trace
      rw [runFrom_step_node loopGraph n "UserTask2" "UserTask2" st trace
        user_task2 rfl rfl rfl]
      exact ih _ _
  refine ⟨ha, ?_⟩
  intro fuel input channel
  have h := ha fuel (orchestrate_initial input channel none) []
  simp only [orchestrate_workflow]
  rw [show loopGraph.entry = "UserTask2" from rfl, h]
  rfl

/-- C9 counterexample: when the order tool raises, `tool_task` catches the
exception and merely sets `tool_result = None` — no error is recorded into
the state as a field, and the resulting state is indistinguishable from a
successful lookup that found nothing. -/
theorem c9_counterexample :
    tool_task toolsRaise c9State = { c9State with tool_result := none } ∧
    tool_task toolsRaise c9State = tool_task toolsNotFound c9State :=
  ⟨rfl, rfl⟩

/-- C9 (amended): a raised order tool never propagates — `tool_task` catches
it and writes `tool_result = None` (the error itself is discarded, not
recorded), routing proceeds normally, and `render_chat` resolves the turn to
a terminal user-facing response (the order-not-found message). -/
theorem c9_handler_error_swallowed (st : GraphState) (tools : ToolOracles)
    (llm : LLMOracle) (e : String)
    (h1 : st.intent = some "order_status")
    (h2 : tools.lookup_order_status
      (pyOrOS (dget st.entities "orderId") (extract_order_id st.input)) =
        .error e)
    (h3 : st.response = none) :
    tool_task tools st = { st with tool_result := none } ∧
    (render_chat llm (tool_task tools st)).response =
      some ("I couldn\u0027t find order " ++
        optStr (pyOrOS (dget st.entities "orderId") (extract_order_id st.input)) ++
        " in our system. Please verify the order ID or ensure the order data has been loaded into Neo4j using the \u0027Load Order Data\u0027 button in the System Management panel.") := by
  have htool : tool_task tools st = { st with tool_result := none } := by
    unfold tool_task
    rw [h1]
    simp [h2]
  refine ⟨htool, ?_⟩
  rw [htool]
  unfold render_chat
  simp [truthyS, truthyDict, h3]
  unfold render_chat_postTool
  simp [h1]

/-- C9 witness: the amended statement at an explicit state and failing tool. -/
theorem c9_handler_error_swallowed_witness :
    c9State.intent = some "order_status" ∧
    toolsRaise.lookup_order_status
      (pyOrOS (dget c9State.entities "orderId")
        (extract_order_id c9State.input)) = .error "boom" ∧
    c9State.response = none ∧
    (tool_task toolsRaise c9State = { c9State with tool_result := none } ∧
     (render_chat llmNone (tool_task toolsRaise c9State)).response =
       some ("I couldn\u0027t find order " ++
         optStr (pyOrOS (dget c9State.entities "orderId")
           (extract_order_id c9State.input)) ++
         " in our system. Please verify the order ID or ensure the order data has been loaded into Neo4j using the \u0027Load Order Data\u0027 button in the System Management panel.")) :=
  ⟨rfl, rfl, rfl, c9_handler_error_swallowed c9State toolsRaise llmNone "boom" rfl rfl rfl⟩

/-- C10: `update_state` returns a mapping that equals the updates on the
updated keys and agrees with the input state on every other key (the input
itself is untouched — the embedding is pure, as is the Python dict-merge
`\x7b**state, **updates\x7d`, which builds a new dict); consequently
`agent_task`, built from a single `update_state` call writing only
`agent_result`, leaves every other state field unchanged. -/
theorem c10_update_state_frame :
    (∀ (V : Type) (s u : List (String × V)) (k : String) (v : V),
      dget u k = some v → dget (update_state s u) k = some v) ∧
    (∀ (V : Type) (s u : List (String × V)) (k : String),
      dget u k = none → dget (update_state s u) k = dget s k) ∧
    (∀ st : GraphState, agent_task st =
      { st with agent_result := (agent_task st).agent_result }) := by
  refine ⟨?_, ?_, fun st => rfl⟩
  · intro V s u k v hu
    unfold update_state
    rw [dget_append, dget_map_upd, dget_filter_none]
    cases hs : dget s k with
    | some w => simp [hu]
    | none => simp [hs, hu]
  · intro V s u k hu
    unfold update_state
    rw [dget_append, dget_map_upd, dget_filter_none]
    cases hs : dget s k with
    | some w => simp [hs, hu]
    | none => simp [hs, hu]

/-- C10 witness: the frame property at explicit dicts. -/
theorem c10_update_state_frame_witness :
    dget [("agent_result", "planned")] "agent_result" = some "planned" ∧
    dget (update_state [("intent", "refund"), ("agent_result", "old")]
      [("agent_result", "planned")]) "agent_result" = some "planned" ∧
    dget [("agent_result", "planned")] "intent" = none ∧
    dget (update_state [("intent", "refund"), ("agent_result", "old")]
      [("agent_result", "planned")]) "intent" =
      dget [("intent", "refund"), ("agent_result", "old")] "intent" :=
  ⟨rfl,
   c10_update_state_frame.1 String [("intent", "refund"), ("agent_result", "old")]
     [("agent_result", "planned")] "agent_result" "planned" rfl,
   rfl,
   c10_update_state_frame.2.1 String [("intent", "refund"), ("agent_result", "old")]
     [("agent_result", "planned")] "intent" rfl⟩

end OMS
